import Mathlib

/-!
Shallow embedding of the matrixcube shard state machine's admin command
applier (raftstore `execAdminRequest` and its handlers), the error mapping
layer (`raftstore/errors.go`), the write-metrics update, and the heartbeat
response stream multiplexer.  Go byte strings are `List Nat`, `uint64` is
`Nat` with explicit `% 2 ^ 64` where overflow matters, `int64` is `Int`,
and fallible calls into the storage adapter are modelled by a `DataStorage`
record of outcomes.  `logger.Fatal` calls (process aborts) are modelled by
the `Outcome.fatal` constructor.
-/

namespace Raftstore

/-- Byte strings (`[]byte` in Go). -/
abbrev Bytes := List Nat

/-- Model of Go `bytes.Compare`: lexicographic three-way comparison. -/
def bytesCompare : Bytes → Bytes → Ordering
  | [], [] => .eq
  | [], _ :: _ => .lt
  | _ :: _, [] => .gt
  | a :: as, b :: bs =>
    if a < b then .lt else if b < a then .gt else bytesCompare as bs

/-- Replica roles (`metapb.ReplicaRole`): `Voter` or `Learner`. -/
inductive ReplicaRole where
  | Voter
  | Learner
deriving DecidableEq

/-- One replica of a shard (`metapb.Replica`): `{ID, ContainerID, Role}`. -/
structure Replica where
  id : Nat
  containerID : Nat
  role : ReplicaRole
deriving DecidableEq

/-- Shard epoch (`metapb.ResourceEpoch`): `(confVer, version)`. -/
structure Epoch where
  confVer : Nat
  version : Nat
deriving DecidableEq

/-- Shard lifecycle state (`metapb.ResourceState`). -/
inductive ResourceState where
  | Running
  | Destroying
  | Destroyed
deriving DecidableEq

/-- Shard metadata (`metapb.Resource` / raftstore `Shard`): the fields read
and written by the admin handlers. -/
structure Shard where
  id : Nat
  group : Nat
  unique : String
  ruleGroups : List Nat
  disableSplit : Bool
  start : Bytes
  end_ : Bytes
  epoch : Epoch
  replicas : List Replica
  labels : List (String × String)
  state : ResourceState
deriving DecidableEq

/-- Durable replica state (`meta.ReplicaState`). -/
inductive ReplicaState where
  | Normal
  | Tombstone
  | Splitting
deriving DecidableEq

/-- Durable record (`meta.ShardLocalState`): `{state, shard, removeData}`. -/
structure ShardLocalState where
  state : ReplicaState
  shard : Shard
  removeData : Bool
deriving DecidableEq

/-- Persistence envelope (`meta.ShardMetadata`):
`{shardID, logIndex, metadata}`. -/
structure ShardMetadata where
  shardID : Nat
  logIndex : Nat
  metadata : ShardLocalState
deriving DecidableEq

/-! Error mapping layer, from `raftstore/errors.go`. -/

/-- Message of `errStaleCMD = errors.New("stale command")`. -/
def errStaleCMD : String := "stale command"

/-- Message of `errStaleEpoch = errors.New("stale epoch")`. -/
def errStaleEpoch : String := "stale epoch"

/-- Message of `errKeyNotInShard = errors.New("key not in shard")`. -/
def errKeyNotInShard : String := "key not in shard"

/-- Payload of `errorpb.KeyNotInShard`. -/
structure KeyNotInShardPb where
  key : Bytes
  shardID : Nat
  start : Bytes
  end_ : Bytes
deriving DecidableEq

/-- Wire error envelope (`errorpb.Error`): the fields touched by
`errors.go`.  A `none` sub-error models a nil pointer; `staleCommand` is a
`Bool` because `infoStaleCMD` carries no data. -/
structure ErrorPb where
  message : String
  staleCommand : Bool
  staleEpoch : Option (List Shard)
  keyNotInShard : Option KeyNotInShardPb
deriving DecidableEq

/-- Zero value of `errorpb.Error`. -/
def emptyErrorPb : ErrorPb :=
  { message := "", staleCommand := false, staleEpoch := none,
    keyNotInShard := none }

/-- Response batch header (`rpc.ResponseBatchHeader`): `{ID, Error}`. -/
structure ResponseBatchHeader where
  id : Bytes
  error : ErrorPb
deriving DecidableEq

/-- Admin response payload carried by a response batch
(`rpc.AdminResponse`), one variant per admin command type. -/
inductive AdminResponsePayload where
  | configChange (shard : Shard)
  | batchSplit (shards : List Shard)
  | compactLog
  | updateMetadata
  | updateLabels
deriving DecidableEq

/-- Response batch (`rpc.ResponseBatch`): the fields used by the admin
handlers and the error layer.  `rpc.ResponseBatch{}` is
`emptyResponseBatch`. -/
structure ResponseBatch where
  header : Option ResponseBatchHeader
  responses : List Bytes
  adminResponse : Option AdminResponsePayload
deriving DecidableEq

/-- Zero value `rpc.ResponseBatch{}`. -/
def emptyResponseBatch : ResponseBatch :=
  { header := none, responses := [], adminResponse := none }

/-- Model of `newAdminResponseBatch`: a fresh batch holding one admin
response of the given variant. -/
def newAdminResponseBatch (p : AdminResponsePayload) : ResponseBatch :=
  { header := none, responses := [], adminResponse := some p }

/-- Model of `buildUUID`: copies `uuid` into the header ID only when the
header exists and its ID is already non-empty. -/
def buildUUID (uuid : Bytes) (resp : ResponseBatch) : ResponseBatch :=
  match resp.header with
  | none => resp
  | some h =>
    if h.id ≠ [] then { resp with header := some { h with id := uuid } }
    else resp

/-- Model of `errorBaseResp`: acquires a batch with a fresh zero-valued
header and applies `buildUUID`. -/
def errorBaseResp (uuid : Bytes) : ResponseBatch :=
  buildUUID uuid
    { header := some { id := [], error := emptyErrorPb },
      responses := [], adminResponse := none }

/-- Model of `errorStaleEpochResp`: base response whose header error gets
`Message = errStaleCMD.Error()` and `StaleEpoch = {NewShards: newShards}`. -/
def errorStaleEpochResp (uuid : Bytes) (newShards : List Shard) :
    ResponseBatch :=
  let resp := errorBaseResp uuid
  match resp.header with
  | none => resp
  | some h =>
    { resp with
      header := some
        { h with error :=
          { h.error with message := errStaleCMD,
                         staleEpoch := some newShards } } }

/-- Model of `errorStaleCMDResp`: base response whose header error gets the
stale-command message and the `StaleCommand` marker. -/
def errorStaleCMDResp (uuid : Bytes) : ResponseBatch :=
  let resp := errorBaseResp uuid
  match resp.header with
  | none => resp
  | some h =>
    { resp with
      header := some
        { h with error :=
          { h.error with message := errStaleCMD, staleCommand := true } } }

/-- Model of `checkKeyInShard`: `nil` iff
`bytes.Compare(key, start) >= 0 && (len(end) == 0 ||
bytes.Compare(key, end) < 0)`, otherwise a `KeyNotInShard` error. -/
def checkKeyInShard (key : Bytes) (shard : Shard) : Option ErrorPb :=
  if bytesCompare key shard.start ≠ Ordering.lt ∧
      (shard.end_ = [] ∨ bytesCompare key shard.end_ = Ordering.lt) then
    none
  else
    some { message := errKeyNotInShard, staleCommand := false,
           staleEpoch := none,
           keyNotInShard := some
             { key := key, shardID := shard.id, start := shard.start,
               end_ := shard.end_ } }

/-! Admin applier (`stateMachine` handlers in the raftstore source). -/

/-- Outcomes of the storage adapter's `Split` call: success, the
`storage.ErrAborted` no-op signal, or any other error. -/
inductive SplitStorageResult where
  | ok
  | aborted
  | otherErr
deriving DecidableEq

/-- Behaviour of the consumed storage adapter (§4.3) for one apply:
the value `GetPersistentLogIndex` would return, whether it errors, whether
`SaveShardMetadata` errors, and what `Split` returns. -/
structure DataStorage where
  persistentLogIndex : Nat
  getPersistentLogIndexErr : Bool
  saveShardMetadataErr : Bool
  splitResult : SplitStorageResult
deriving DecidableEq

/-- In-memory state of one shard's `stateMachine`: the current shard, this
replica's own ID (`d.replica.ID`), the raft `firstIndex`, and the
`removed` / `splited` flags. -/
structure StateMachine where
  shard : Shard
  replicaID : Nat
  firstIndex : Nat
  removed : Bool
  splited : Bool
deriving DecidableEq

/-- Domain errors returned (non-fatally) by the admin handlers:
`ErrReplicaDuplicated`, `ErrReplicaNotFound`, and a propagated
`GetPersistentLogIndex` failure from `adjustCompactionIndex`. -/
inductive ExecError where
  | replicaDuplicated
  | replicaNotFound
  | storageGetPersistentLogIndex
deriving DecidableEq

/-- Configuration change kinds (`metapb.ConfigChangeType`). -/
inductive ConfigChangeType where
  | AddNode
  | RemoveNode
  | AddLearnerNode
deriving DecidableEq

/-- Input of the ConfigChange handler (`rpc.ConfigChangeRequest`):
`{replica, changeType}`. -/
structure ConfigChangeRequest where
  replica : Replica
  changeType : ConfigChangeType
deriving DecidableEq

/-- Structured admin result handed back to the Raft core
(`adminResult` in the source), one variant per admin command. -/
inductive AdminResult where
  | compaction (index : Nat)
  | configChange (index : Nat) (changes : List ConfigChangeRequest)
      (shard : Shard)
  | split (newShards : List Shard)
deriving DecidableEq

/-- Everything one admin handler call produces: the state machine after the
call, the returned response batch, the admin result (if any), the records
passed to `SaveShardMetadata` (empty when no persistence happened), and
the returned error (if any). -/
structure ExecOutput where
  d : StateMachine
  resp : ResponseBatch
  adminResult : Option AdminResult
  saved : List ShardMetadata
  err : Option ExecError
deriving DecidableEq

/-- Result of running a handler: either it completes with an `ExecOutput`
or it hits a `logger.Fatal` (process abort). -/
inductive Outcome (α : Type) where
  | fatal : Outcome α
  | ok : α → Outcome α
deriving DecidableEq

/-! CompactLog (`doExecCompactLog`, `adjustCompactionIndex`). -/

/-- Model of `adjustCompactionIndex`: queries the persistent log index and
lowers `index` to it when `index` exceeds it; propagates the query error. -/
def adjustCompactionIndex (st : DataStorage) (index : Nat) :
    Except Unit Nat :=
  if st.getPersistentLogIndexErr then .error ()
  else if index > st.persistentLogIndex then .ok st.persistentLogIndex
  else .ok index

/-- Model of `doExecCompactLog`: no-op when `compactIndex ≤ firstIndex`;
otherwise clamp via `adjustCompactionIndex` (propagating its error),
advance `firstIndex` to the clamped index plus one, and emit a CompactLog
response and a `compactionResult` admin result. -/
def doExecCompactLog (st : DataStorage) (d : StateMachine)
    (compactIndex : Nat) : Outcome ExecOutput :=
  if compactIndex ≤ d.firstIndex then
    .ok { d := d, resp := emptyResponseBatch, adminResult := none,
          saved := [], err := none }
  else
    match adjustCompactionIndex st compactIndex with
    | .error _ =>
      .ok { d := d, resp := emptyResponseBatch, adminResult := none,
            saved := [], err := some .storageGetPersistentLogIndex }
    | .ok ci =>
      .ok { d := { d with firstIndex := ci + 1 },
            resp := newAdminResponseBatch .compactLog,
            adminResult := some (.compaction ci),
            saved := [], err := none }

/-! ConfigChange (`doExecConfigChange`). -/

/-- Modelled from the spec: `findReplica` is not under src (only its caller
is); it locates the existing replica on the given container
(§4.1.1 step 2, and I3 keys replicas uniquely by `containerID`). -/
def findReplica (s : Shard) (containerID : Nat) : Option Replica :=
  s.replicas.find? (fun r => r.containerID == containerID)

/-- Model of the in-place `p.Role = Voter` write through the pointer
returned by `findReplica`: set the role of the first replica on the given
container to `Voter`. -/
def promoteVoter : List Replica → Nat → List Replica
  | [], _ => []
  | r :: rest, cid =>
    if r.containerID = cid then { r with role := .Voter } :: rest
    else r :: promoteVoter rest cid

/-- Modelled from the spec: `removeReplica` is not under src (only its
caller is); it removes the entry located on the given container
(§4.1.1 RemoveNode: "Remove the entry"). -/
def removeReplica (s : Shard) (containerID : Nat) : Shard :=
  { s with replicas := s.replicas.filter (fun r => r.containerID != containerID) }

/-- Model of `saveShardMetedata` (source spelling): the single
`meta.ShardMetadata` record handed to `SaveShardMetadata`. -/
def saveShardMetedata (index : Nat) (shard : Shard)
    (state : ReplicaState) : ShardMetadata :=
  { shardID := shard.id, logIndex := index,
    metadata := { state := state, shard := shard, removeData := false } }

/-- Model of the `switch req.ChangeType` body of `doExecConfigChange`,
acting on the epoch-bumped clone `res`.  On success it returns the mutated
clone and whether this replica removed itself. -/
def configChangeBranch (d : StateMachine) (res : Shard) (replica : Replica) :
    ConfigChangeType → Except ExecError (Shard × Bool)
  | .AddNode =>
    match findReplica res replica.containerID with
    | some p =>
      if p.id = replica.id then
        if p.role ≠ .Learner then .error .replicaDuplicated
        else
          .ok ({ res with
                 replicas := promoteVoter res.replicas replica.containerID },
               false)
      else .error .replicaDuplicated
    | none =>
      .ok ({ res with replicas := res.replicas ++ [{ replica with role := .Voter }] },
           false)
  | .RemoveNode =>
    match findReplica res replica.containerID with
    | some p =>
      if p.id ≠ replica.id then .error .replicaNotFound
      else
        .ok (removeReplica res replica.containerID, d.replicaID == replica.id)
    | none => .error .replicaNotFound
  | .AddLearnerNode =>
    match findReplica res replica.containerID with
    | some _ => .error .replicaDuplicated
    | none =>
      .ok ({ res with replicas := res.replicas ++ [{ replica with role := .Learner }] },
           false)

/-- Model of `doExecConfigChange`: clone the shard, bump `epoch.confVer`,
run the change-type branch; on a domain error return it with an empty
batch and no state change; on success compute the replica state
(`Tombstone` iff removed), swap the in-memory shard, persist one metadata
record (a storage failure is fatal), and emit the response plus a
`configChangeResult`. -/
def doExecConfigChange (st : DataStorage) (d : StateMachine) (index : Nat)
    (req : ConfigChangeRequest) : Outcome ExecOutput :=
  match configChangeBranch d
      { d.shard with
        epoch := { d.shard.epoch with
                   confVer := d.shard.epoch.confVer + 1 } }
      req.replica req.changeType with
  | .error e =>
    .ok { d := d, resp := emptyResponseBatch, adminResult := none,
          saved := [], err := some e }
  | .ok (res2, selfRemoved) =>
    if st.saveShardMetadataErr then .fatal
    else
      .ok { d := { d with
                   shard := res2,
                   removed := d.removed || selfRemoved },
            resp := newAdminResponseBatch (.configChange res2),
            adminResult := some (.configChange index [req] res2),
            saved := [saveShardMetedata index res2
              (if d.removed || selfRemoved then ReplicaState.Tombstone
               else ReplicaState.Normal)],
            err := none }

/-! BatchSplit (`doExecSplit`). -/

/-- One split request (`rpc.SplitRequest`):
`{start, end, newShardID, newReplicas}`. -/
structure SplitRequest where
  start : Bytes
  end_ : Bytes
  newShardID : Nat
  newReplicas : List Replica
deriving DecidableEq

/-- Input of the BatchSplit handler (`rpc.BatchSplitRequest`): the ordered
requests plus the opaque context forwarded to `storage.Split`. -/
structure BatchSplitRequest where
  requests : List SplitRequest
  context : Bytes
deriving DecidableEq

/-- Model of the child-shard construction inside the `doExecSplit` loop:
`group, unique, ruleGroups, disableSplit, epoch` come from the (bumped)
parent, `id, start, end, replicas` from the request; the remaining fields
keep the `Shard{}` zero value. -/
def mkChild (current : Shard) (req : SplitRequest) : Shard :=
  { id := req.newShardID, group := current.group, unique := current.unique,
    ruleGroups := current.ruleGroups, disableSplit := current.disableSplit,
    epoch := current.epoch, start := req.start, end_ := req.end_,
    replicas := req.newReplicas, labels := [], state := .Running }

/-- Model of the validation-and-construction loop of `doExecSplit`:
for each request, `checkKeyInShard` must accept its start (and, except for
the last request, its end) and its start must equal the running
`expectStart`; a violation is fatal (`none`).  On success it returns the
child shards in request order. -/
def buildChildren (current : Shard) (expectStart : Bytes) :
    List SplitRequest → Option (List Shard)
  | [] => some []
  | [r] =>
    if (checkKeyInShard r.start current).isSome then none
    else if r.start ≠ expectStart then none
    else some [mkChild current r]
  | r :: r2 :: rest =>
    if (checkKeyInShard r.start current).isSome ∨
        (checkKeyInShard r.end_ current).isSome then none
    else if r.start ≠ expectStart then none
    else
      match buildChildren current r.end_ (r2 :: rest) with
      | none => none
      | some cs => some (mkChild current r :: cs)

/-- Model of the pure part of `doExecSplit` before the `storage.Split`
call: fatal (`none`) when the request list is empty, when its first start
or last end disagree with the shard's range, or when the loop validation
fails; otherwise the parent clone with `epoch.version` bumped by the number
of requests and `state = Destroying`, together with the child shards. -/
def splitChildren (shard : Shard) (reqs : List SplitRequest) :
    Option (Shard × List Shard) :=
  match reqs with
  | [] => none
  | r0 :: rest =>
    if r0.start = shard.start ∧
        ((r0 :: rest).getLast (List.cons_ne_nil r0 rest)).end_ = shard.end_ then
      let bumped :=
        { shard with
          epoch := { shard.epoch with
                     version := shard.epoch.version + (r0 :: rest).length } }
      match buildChildren bumped shard.start (r0 :: rest) with
      | none => none
      | some cs => some ({ bumped with state := .Destroying }, cs)
    else none

/-- Model of `doExecSplit`: validate and construct via `splitChildren`
(fatal on violation), then call `storage.Split`; `ErrAborted` yields an
empty response with no mutation, any other error is fatal, and success
sets the `splited` flag, swaps in the destroying parent, and emits the
`BatchSplit` response and `splitResult`. -/
def doExecSplit (st : DataStorage) (d : StateMachine)
    (splitReqs : BatchSplitRequest) : Outcome ExecOutput :=
  match splitChildren d.shard splitReqs.requests with
  | none => .fatal
  | some (parent, newShards) =>
    match st.splitResult with
    | .aborted =>
      .ok { d := d, resp := emptyResponseBatch, adminResult := none,
            saved := [], err := none }
    | .otherErr => .fatal
    | .ok =>
      .ok { d := { d with shard := parent, splited := true },
            resp := newAdminResponseBatch (.batchSplit newShards),
            adminResult := some (.split newShards),
            saved := [], err := none }

/-! Write metrics (`updateWriteMetrics`). -/

/-- Apply-loop metrics (`applyMetrics`): the two `uint64` counters touched
by `updateWriteMetrics`. -/
structure ApplyMetrics where
  writtenBytes : Nat
  approximateDiffHint : Nat
deriving DecidableEq

/-- Granularity of `float64` around `n` (distance between consecutive
representable integers): `1` up to `2 ^ 53`, then `2 ^ (e - 52)` for `n`
with `2 ^ e ≤ n < 2 ^ (e + 1)`, spelled out for the `int64` magnitude
range (inputs here are `|int64|`, at most `2 ^ 63`). -/
def f64Granule (n : Nat) : Nat :=
  if n ≤ 2 ^ 53 then 1
  else if n < 2 ^ 54 then 2 ^ 1
  else if n < 2 ^ 55 then 2 ^ 2
  else if n < 2 ^ 56 then 2 ^ 3
  else if n < 2 ^ 57 then 2 ^ 4
  else if n < 2 ^ 58 then 2 ^ 5
  else if n < 2 ^ 59 then 2 ^ 6
  else if n < 2 ^ 60 then 2 ^ 7
  else if n < 2 ^ 61 then 2 ^ 8
  else if n < 2 ^ 62 then 2 ^ 9
  else if n < 2 ^ 63 then 2 ^ 10
  else 2 ^ 11

/-- Round `n` to a multiple of `p`, ties to even (IEEE 754 default). -/
def roundTiesToEven (n p : Nat) : Nat :=
  let q := n / p
  let r := n % p
  if r * 2 < p then q * p
  else if r * 2 > p then (q + 1) * p
  else if q % 2 = 0 then q * p else (q + 1) * p

/-- Round `n` to the nearest `float64`-representable integer (53-bit
mantissa, ties to even): exact for `n ≤ 2 ^ 53`. -/
def roundF64 (n : Nat) : Nat := roundTiesToEven n (f64Granule n)

/-- Model of `uint64(math.Abs(float64(diffBytes)))` for an `int64`
`diffBytes`: the absolute value as rounded by the conversion to
`float64`. -/
def uint64AbsFloat (diffBytes : Int) : Nat := roundF64 diffBytes.natAbs

/-- Model of `updateWriteMetrics`: adds the written bytes (with `uint64`
wrap-around); when `diffBytes` is negative, subtracts its float64-rounded
absolute value from `approximateDiffHint`, explicitly setting the hint to
zero when that value reaches the hint; otherwise adds `diffBytes` to the
hint. -/
def updateWriteMetrics (m : ApplyMetrics) (writtenBytes : Nat)
    (diffBytes : Int) : ApplyMetrics :=
  let m1 := { m with
              writtenBytes := (m.writtenBytes + writtenBytes) % 2 ^ 64 }
  if diffBytes < 0 then
    let v := uint64AbsFloat diffBytes
    if v ≥ m1.approximateDiffHint then
      { m1 with approximateDiffHint := 0 }
    else
      { m1 with approximateDiffHint := m1.approximateDiffHint - v }
  else
    { m1 with
      approximateDiffHint :=
        (m1.approximateDiffHint + diffBytes.toNat) % 2 ^ 64 }

/-! Heartbeat response stream multiplexer. -/

/-- Modelled from the spec: the multiplexer implementation
(`heartbeat_streams.go`) is not under src, only its test `TestActivity` is.
Per §4.4 the state is a mapping `shardID → activeStream` plus the log of
delivered `(stream, message)` pairs and a drop counter; streams and
messages are identified by naturals. -/
structure HBStreams where
  bound : List (Nat × Nat)
  delivered : List (Nat × Nat)
  dropped : Nat
deriving DecidableEq

/-- Modelled from the spec: look up the active stream bound to a shard. -/
def lookupStream (bound : List (Nat × Nat)) (shardID : Nat) : Option Nat :=
  (bound.find? (fun p => p.1 == shardID)).map (fun p => p.2)

/-- Modelled from the spec: `BindStream(shardID, stream)` atomically
replaces any prior stream for the shard; subsequent sends reach `stream`
only. -/
def bindStream (σ : HBStreams) (shardID streamID : Nat) : HBStreams :=
  { σ with
    bound := (shardID, streamID) :: σ.bound.filter (fun p => p.1 != shardID) }

/-- Modelled from the spec: `SendMsg(shard, msg)` looks up the active
stream for the shard and enqueues the message there, or drops it with a
telemetry counter when no stream is bound. -/
def sendMsg (σ : HBStreams) (shardID msg : Nat) : HBStreams :=
  match lookupStream σ.bound shardID with
  | some stream => { σ with delivered := σ.delivered ++ [(stream, msg)] }
  | none => { σ with dropped := σ.dropped + 1 }

/-- Send a sequence of messages to one shard, in order. -/
def sendMsgs : HBStreams → Nat → List Nat → HBStreams
  | σ, _, [] => σ
  | σ, shardID, m :: rest => sendMsgs (sendMsg σ shardID m) shardID rest

/-- Range chaining of a child list starting from a given key: each child
starts where the previous one ended. -/
def childChain : Bytes → List Shard → Prop
  | _, [] => True
  | es, c :: rest => c.start = es ∧ childChain c.end_ rest

/-! Theorems about the embedded program. -/

/-- Exactness of the `float64` conversion on the 53-bit range. -/
theorem roundF64_exact (n : Nat) (h : n ≤ 2 ^ 53) : roundF64 n = n := by
  have hg : f64Granule n = 1 := by rw [f64Granule, if_pos h]
  rw [roundF64, hg, roundTiesToEven]
  simp [Nat.mod_one]

/-- C10: every `errorStaleEpochResp` populates `Header.Error.StaleEpoch`
with the given new shards, but sets `Header.Error.Message` to the
stale-command text "stale command" rather than the message of the distinct
`errStaleEpoch` value "stale epoch". -/
theorem errorStaleEpochResp_message (uuid : Bytes) (newShards : List Shard) :
    ∃ h, (errorStaleEpochResp uuid newShards).header = some h ∧
      h.error.staleEpoch = some newShards ∧
      h.error.message = errStaleCMD ∧
      errStaleCMD = "stale command" ∧
      errStaleEpoch = "stale epoch" ∧
      h.error.message ≠ errStaleEpoch := by
  refine ⟨{ id := [],
            error := { message := errStaleCMD, staleCommand := false,
                       staleEpoch := some newShards,
                       keyNotInShard := none } },
          rfl, rfl, rfl, rfl, rfl, ?_⟩
  show errStaleCMD ≠ errStaleEpoch
  decide

/-- C5: for a CompactLog entry with `compactIndex` strictly above
`firstIndex`, when `GetPersistentLogIndex` succeeds the applied compaction
index is `min compactIndex persistentLogIndex`, the new `firstIndex` is
that clamped index plus one, and the emitted `compactionResult.index` is
the clamped index. -/
theorem doExecCompactLog_clamp (st : DataStorage) (d : StateMachine)
    (compactIndex : Nat) (hgt : d.firstIndex < compactIndex)
    (herr : st.getPersistentLogIndexErr = false) :
    ∃ out, doExecCompactLog st d compactIndex = .ok out ∧
      out.d.firstIndex = min compactIndex st.persistentLogIndex + 1 ∧
      out.adminResult =
        some (.compaction (min compactIndex st.persistentLogIndex)) ∧
      out.err = none ∧ out.d.shard = d.shard := by
  rw [doExecCompactLog, if_neg (by omega), adjustCompactionIndex, herr]
  by_cases hc : compactIndex > st.persistentLogIndex
  · rw [if_neg (by simp), if_pos hc]
    exact ⟨_, rfl, by simp; omega, by simp; omega, rfl, rfl⟩
  · rw [if_neg (by simp), if_neg hc]
    exact ⟨_, rfl, by simp; omega, by simp; omega, rfl, rfl⟩

/-- Witness for `doExecCompactLog_clamp`: the spec's literal scenario 6,
`firstIndex = 5`, persistent log index `20`, `CompactLog 100`, expecting
new `firstIndex = 21` and compaction index `20`. -/
theorem doExecCompactLog_clamp_witness :
    (5 : Nat) < 100 ∧
    (DataStorage.mk 20 false false .ok).getPersistentLogIndexErr = false ∧
    ∃ out,
      doExecCompactLog (DataStorage.mk 20 false false .ok)
        (StateMachine.mk
          (Shard.mk 1 0 "" [] false [97] [122] (Epoch.mk 1 1)
            [Replica.mk 1 1 .Voter] [] .Running) 1 5 false false)
        100 = .ok out ∧
      out.d.firstIndex = min 100 20 + 1 ∧
      out.adminResult = some (.compaction (min 100 20)) ∧
      out.err = none ∧
      out.d.shard =
        (StateMachine.mk
          (Shard.mk 1 0 "" [] false [97] [122] (Epoch.mk 1 1)
            [Replica.mk 1 1 .Voter] [] .Running) 1 5 false false).shard :=
  ⟨by decide, by decide,
   doExecCompactLog_clamp (DataStorage.mk 20 false false .ok)
     (StateMachine.mk
       (Shard.mk 1 0 "" [] false [97] [122] (Epoch.mk 1 1)
         [Replica.mk 1 1 .Voter] [] .Running) 1 5 false false)
     100 (by decide) (by decide)⟩

/-- C6 counterexample: with `firstIndex = 5` and persistent log index `10`,
`CompactLog 100` clamps to `10` and sets `firstIndex = 11`; the subsequent
`CompactLog 50` has `50 < 100` yet is not a no-op: it returns a non-empty
response batch and emits a `compactionResult` admin result (index `10`)
again. -/
theorem doExecCompactLog_pair_cx :
    (50 : Nat) < 100 ∧
    doExecCompactLog (DataStorage.mk 10 false false .ok)
        (StateMachine.mk
          (Shard.mk 1 0 "" [] false [97] [122] (Epoch.mk 1 1)
            [Replica.mk 1 1 .Voter] [] .Running) 1 5 false false)
        100 =
      .ok (ExecOutput.mk
        (StateMachine.mk
          (Shard.mk 1 0 "" [] false [97] [122] (Epoch.mk 1 1)
            [Replica.mk 1 1 .Voter] [] .Running) 1 11 false false)
        (newAdminResponseBatch .compactLog) (some (.compaction 10)) []
        none) ∧
    doExecCompactLog (DataStorage.mk 10 false false .ok)
        (StateMachine.mk
          (Shard.mk 1 0 "" [] false [97] [122] (Epoch.mk 1 1)
            [Replica.mk 1 1 .Voter] [] .Running) 1 11 false false)
        50 =
      .ok (ExecOutput.mk
        (StateMachine.mk
          (Shard.mk 1 0 "" [] false [97] [122] (Epoch.mk 1 1)
            [Replica.mk 1 1 .Voter] [] .Running) 1 11 false false)
        (newAdminResponseBatch .compactLog) (some (.compaction 10)) []
        none) ∧
    some (AdminResult.compaction 10) ≠ (none : Option AdminResult) ∧
    newAdminResponseBatch .compactLog ≠ emptyResponseBatch := by
  decide

/-- C6 amended: `CompactLog i` followed by `CompactLog j` with `j < i` is a
no-op (empty response, no admin result, `firstIndex` unchanged) provided
the first application's compaction index was not clamped below `i`, i.e.
`i ≤ persistentLogIndex` when the first entry applied without a storage
error.  (Without that proviso the clamped `firstIndex` can stay below `j`
and the second entry compacts again, as `doExecCompactLog_pair_cx`
shows.) -/
theorem doExecCompactLog_then_smaller_noop (st st2 : DataStorage)
    (d : StateMachine) (i j : Nat) (out1 : ExecOutput)
    (herr : st.getPersistentLogIndexErr = false)
    (hle : i ≤ st.persistentLogIndex) (hji : j < i)
    (h1 : doExecCompactLog st d i = .ok out1) :
    doExecCompactLog st2 out1.d j =
      .ok (ExecOutput.mk out1.d emptyResponseBatch none [] none) := by
  rw [doExecCompactLog] at h1
  by_cases hfi : i ≤ d.firstIndex
  · rw [if_pos hfi] at h1
    cases h1
    rw [doExecCompactLog, if_pos (by simp; omega)]
  · rw [if_neg hfi, adjustCompactionIndex, herr] at h1
    rw [if_neg (by simp), if_neg (by omega)] at h1
    cases h1
    rw [doExecCompactLog, if_pos (by simp; omega)]

/-- Witness for `doExecCompactLog_then_smaller_noop`: persistent log index
`30`, `firstIndex = 5`; `CompactLog 20` then `CompactLog 7` makes the
second a no-op. -/
theorem doExecCompactLog_then_smaller_noop_witness :
    (DataStorage.mk 30 false false .ok).getPersistentLogIndexErr = false ∧
    (20 : Nat) ≤ (DataStorage.mk 30 false false .ok).persistentLogIndex ∧
    (7 : Nat) < 20 ∧
    doExecCompactLog (DataStorage.mk 30 false false .ok)
        (StateMachine.mk
          (Shard.mk 1 0 "" [] false [97] [122] (Epoch.mk 1 1)
            [Replica.mk 1 1 .Voter] [] .Running) 1 5 false false)
        20 =
      .ok (ExecOutput.mk
        (StateMachine.mk
          (Shard.mk 1 0 "" [] false [97] [122] (Epoch.mk 1 1)
            [Replica.mk 1 1 .Voter] [] .Running) 1 21 false false)
        (newAdminResponseBatch .compactLog) (some (.compaction 20)) []
        none) ∧
    doExecCompactLog (DataStorage.mk 30 false false .ok)
        (ExecOutput.mk
          (StateMachine.mk
            (Shard.mk 1 0 "" [] false [97] [122] (Epoch.mk 1 1)
              [Replica.mk 1 1 .Voter] [] .Running) 1 21 false false)
          (newAdminResponseBatch .compactLog) (some (.compaction 20)) []
          none).d 7 =
      .ok (ExecOutput.mk
        (ExecOutput.mk
          (StateMachine.mk
            (Shard.mk 1 0 "" [] false [97] [122] (Epoch.mk 1 1)
              [Replica.mk 1 1 .Voter] [] .Running) 1 21 false false)
          (newAdminResponseBatch .compactLog) (some (.compaction 20)) []
          none).d emptyResponseBatch none [] none) :=
  ⟨by decide, by decide, by decide, by decide,
   doExecCompactLog_then_smaller_noop (DataStorage.mk 30 false false .ok)
     (DataStorage.mk 30 false false .ok)
     (StateMachine.mk
       (Shard.mk 1 0 "" [] false [97] [122] (Epoch.mk 1 1)
         [Replica.mk 1 1 .Voter] [] .Running) 1 5 false false)
     20 7
     (ExecOutput.mk
       (StateMachine.mk
         (Shard.mk 1 0 "" [] false [97] [122] (Epoch.mk 1 1)
           [Replica.mk 1 1 .Voter] [] .Running) 1 21 false false)
       (newAdminResponseBatch .compactLog) (some (.compaction 20)) [] none)
     (by decide) (by decide) (by decide) (by decide)⟩

/-- C9 counterexample: with `approximateDiffHint = 2 ^ 53 + 1` and
`diffBytes = -(2 ^ 53 + 1)` the absolute value of `diffBytes` equals the
hint, so the claim requires the hint to become `0`; but the code computes
`uint64(math.Abs(float64(diffBytes)))`, and `2 ^ 53 + 1` rounds to
`2 ^ 53` in `float64`, so the hint becomes `1`. -/
theorem updateWriteMetrics_float_cx :
    ((-(2 ^ 53 + 1) : Int) < 0) ∧
    (ApplyMetrics.mk 0 (2 ^ 53 + 1)).approximateDiffHint ≤
      (-(2 ^ 53 + 1) : Int).natAbs ∧
    (updateWriteMetrics (ApplyMetrics.mk 0 (2 ^ 53 + 1)) 0
        (-(2 ^ 53 + 1))).approximateDiffHint = 1 := by
  decide

/-- C9 amended: provided `|diffBytes| ≤ 2 ^ 53` (the range on which the
code's `int64 → float64` absolute-value conversion is exact), a negative
`diffBytes` decreases `approximateDiffHint` by `|diffBytes|` saturating at
zero (truncated `Nat` subtraction: the hint becomes `0` whenever
`|diffBytes|` reaches it), and a non-negative `diffBytes` is added to the
hint with `uint64` wrap-around.  For larger magnitudes the code subtracts
the `float64`-rounded absolute value instead, which can differ
(`updateWriteMetrics_float_cx`). -/
theorem updateWriteMetrics_diffHint (m : ApplyMetrics) (wb : Nat)
    (diffBytes : Int) (habs : diffBytes.natAbs ≤ 2 ^ 53) :
    (updateWriteMetrics m wb diffBytes).approximateDiffHint =
      if diffBytes < 0 then m.approximateDiffHint - diffBytes.natAbs
      else (m.approximateDiffHint + diffBytes.toNat) % 2 ^ 64 := by
  rw [updateWriteMetrics]
  by_cases hneg : diffBytes < 0
  · rw [if_pos hneg, if_pos hneg]
    have hv : uint64AbsFloat diffBytes = diffBytes.natAbs :=
      roundF64_exact _ habs
    by_cases hge : uint64AbsFloat diffBytes ≥ m.approximateDiffHint
    · rw [if_pos hge]
      simp only []
      omega
    · rw [if_neg hge]
      simp only []
      omega
  · rw [if_neg hneg, if_neg hneg]

/-- Witness for `updateWriteMetrics_diffHint`: a deletion of 30 bytes
against a hint of 12 saturates the hint at zero. -/
theorem updateWriteMetrics_diffHint_witness :
    ((-30 : Int).natAbs ≤ 2 ^ 53) ∧
    (updateWriteMetrics (ApplyMetrics.mk 0 12) 4 (-30)).approximateDiffHint =
      (if (-30 : Int) < 0 then
        (ApplyMetrics.mk 0 12).approximateDiffHint - (-30 : Int).natAbs
      else ((ApplyMetrics.mk 0 12).approximateDiffHint +
        (-30 : Int).toNat) % 2 ^ 64) :=
  ⟨by decide,
   updateWriteMetrics_diffHint (ApplyMetrics.mk 0 12) 4 (-30) (by decide)⟩

/-- C4: if `storage.Split` returns `Aborted` during a BatchSplit apply,
the handler returns an empty response batch and no error, leaves the
in-memory state machine (shard and `splited` flag included) unchanged,
performs no persistence and emits no admin result; and on the same entry
any other `storage.Split` error is fatal. -/
theorem doExecSplit_aborted (st st2 : DataStorage) (d : StateMachine)
    (splitReqs : BatchSplitRequest) (out : ExecOutput)
    (hab : st.splitResult = .aborted)
    (h : doExecSplit st d splitReqs = .ok out) :
    out.d = d ∧ out.d.shard = d.shard ∧ out.d.splited = d.splited ∧
    out.resp = emptyResponseBatch ∧ out.err = none ∧
    out.adminResult = none ∧ out.saved = [] ∧
    (st2.splitResult = .otherErr →
      doExecSplit st2 d splitReqs = .fatal) := by
  rw [doExecSplit] at h ⊢
  generalize hsc : splitChildren d.shard splitReqs.requests = sc at h ⊢
  cases sc with
  | none => cases h
  | some pcs =>
    obtain ⟨parent, cs⟩ := pcs
    rw [hab] at h
    cases h
    refine ⟨rfl, rfl, rfl, rfl, rfl, rfl, rfl, ?_⟩
    intro h2
    rw [h2]

/-- Witness for `doExecSplit_aborted`: a valid two-way split of
`["a","z")` whose `storage.Split` call aborts. -/
theorem doExecSplit_aborted_witness :
    (DataStorage.mk 0 false false .aborted).splitResult = .aborted ∧
    doExecSplit (DataStorage.mk 0 false false .aborted)
        (StateMachine.mk
          (Shard.mk 1 0 "" [] false [97] [122] (Epoch.mk 1 1)
            [Replica.mk 1 1 .Voter] [] .Running) 1 5 false false)
        (BatchSplitRequest.mk
          [SplitRequest.mk [97] [109] 10 [Replica.mk 10 1 .Voter],
           SplitRequest.mk [109] [122] 11 [Replica.mk 11 1 .Voter]] []) =
      .ok (ExecOutput.mk
        (StateMachine.mk
          (Shard.mk 1 0 "" [] false [97] [122] (Epoch.mk 1 1)
            [Replica.mk 1 1 .Voter] [] .Running) 1 5 false false)
        emptyResponseBatch none [] none) ∧
    ((ExecOutput.mk
        (StateMachine.mk
          (Shard.mk 1 0 "" [] false [97] [122] (Epoch.mk 1 1)
            [Replica.mk 1 1 .Voter] [] .Running) 1 5 false false)
        emptyResponseBatch none [] none).d =
      StateMachine.mk
        (Shard.mk 1 0 "" [] false [97] [122] (Epoch.mk 1 1)
          [Replica.mk 1 1 .Voter] [] .Running) 1 5 false false) ∧
    ((DataStorage.mk 0 false false .otherErr).splitResult = .otherErr →
      doExecSplit (DataStorage.mk 0 false false .otherErr)
        (StateMachine.mk
          (Shard.mk 1 0 "" [] false [97] [122] (Epoch.mk 1 1)
            [Replica.mk 1 1 .Voter] [] .Running) 1 5 false false)
        (BatchSplitRequest.mk
          [SplitRequest.mk [97] [109] 10 [Replica.mk 10 1 .Voter],
           SplitRequest.mk [109] [122] 11 [Replica.mk 11 1 .Voter]] []) =
        .fatal) :=
  ⟨by decide, by decide,
   ((doExecSplit_aborted (DataStorage.mk 0 false false .aborted)
      (DataStorage.mk 0 false false .otherErr)
      (StateMachine.mk
        (Shard.mk 1 0 "" [] false [97] [122] (Epoch.mk 1 1)
          [Replica.mk 1 1 .Voter] [] .Running) 1 5 false false)
      (BatchSplitRequest.mk
        [SplitRequest.mk [97] [109] 10 [Replica.mk 10 1 .Voter],
         SplitRequest.mk [109] [122] 11 [Replica.mk 11 1 .Voter]] [])
      (ExecOutput.mk
        (StateMachine.mk
          (Shard.mk 1 0 "" [] false [97] [122] (Epoch.mk 1 1)
            [Replica.mk 1 1 .Voter] [] .Running) 1 5 false false)
        emptyResponseBatch none [] none)
      (by decide) (by decide)).1),
   ((doExecSplit_aborted (DataStorage.mk 0 false false .aborted)
      (DataStorage.mk 0 false false .otherErr)
      (StateMachine.mk
        (Shard.mk 1 0 "" [] false [97] [122] (Epoch.mk 1 1)
          [Replica.mk 1 1 .Voter] [] .Running) 1 5 false false)
      (BatchSplitRequest.mk
        [SplitRequest.mk [97] [109] 10 [Replica.mk 10 1 .Voter],
         SplitRequest.mk [109] [122] 11 [Replica.mk 11 1 .Voter]] [])
      (ExecOutput.mk
        (StateMachine.mk
          (Shard.mk 1 0 "" [] false [97] [122] (Epoch.mk 1 1)
            [Replica.mk 1 1 .Voter] [] .Running) 1 5 false false)
        emptyResponseBatch none [] none)
      (by decide) (by decide)).2.2.2.2.2.2.2)⟩

/-- Every success of the change-type branch leaves the clone's epoch
untouched: only the replica list is mutated. -/
theorem configChangeBranch_epoch (d : StateMachine) (res : Shard)
    (replica : Replica) (ty : ConfigChangeType) (res2 : Shard) (sf : Bool)
    (h : configChangeBranch d res replica ty = .ok (res2, sf)) :
    res2.epoch = res.epoch := by
  cases ty <;> rw [configChangeBranch] at h <;> (repeat' split at h) <;>
    cases h <;> rfl

/-- The change-type branch only ever fails with `ReplicaDuplicated` or
`ReplicaNotFound`. -/
theorem configChangeBranch_error (d : StateMachine) (res : Shard)
    (replica : Replica) (ty : ConfigChangeType) (e : ExecError)
    (h : configChangeBranch d res replica ty = .error e) :
    e = .replicaDuplicated ∨ e = .replicaNotFound := by
  cases ty <;> rw [configChangeBranch] at h <;> (repeat' split at h) <;>
    cases h <;> first
      | exact Or.inl rfl
      | exact Or.inr rfl

/-- C3: a ConfigChange entry that fails with `ReplicaDuplicated` or
`ReplicaNotFound` returns that non-empty error with an empty response
batch, persists nothing through `SaveShardMetadata`, leaves the in-memory
state machine (shard, replicas, epoch, flags) unchanged and emits no admin
result; moreover these two are the only domain errors this handler
returns. -/
theorem doExecConfigChange_error_no_change (st : DataStorage)
    (d : StateMachine) (index : Nat) (req : ConfigChangeRequest)
    (out : ExecOutput) (e : ExecError)
    (h : doExecConfigChange st d index req = .ok out)
    (he : out.err = some e) :
    (e = .replicaDuplicated ∨ e = .replicaNotFound) ∧
    out.d = d ∧ out.d.shard = d.shard ∧ out.saved = [] ∧
    out.resp = emptyResponseBatch ∧ out.adminResult = none := by
  rw [doExecConfigChange] at h
  split at h
  · next e2 hb =>
    cases h
    cases he
    exact ⟨configChangeBranch_error _ _ _ _ _ hb, rfl, rfl, rfl, rfl, rfl⟩
  · next res2 sf hb =>
    split at h
    · cases h
    · cases h
      cases he

/-- C7: a successfully applied ConfigChange entry (no returned error)
leaves `epoch.confVer` exactly one above its prior value and
`epoch.version` unchanged. -/
theorem doExecConfigChange_epoch (st : DataStorage) (d : StateMachine)
    (index : Nat) (req : ConfigChangeRequest) (out : ExecOutput)
    (h : doExecConfigChange st d index req = .ok out)
    (he : out.err = none) :
    out.d.shard.epoch.confVer = d.shard.epoch.confVer + 1 ∧
    out.d.shard.epoch.version = d.shard.epoch.version := by
  rw [doExecConfigChange] at h
  split at h
  · next e2 hb =>
    cases h
    cases he
  · next res2 sf hb =>
    split at h
    · cases h
    · cases h
      have hep := configChangeBranch_epoch _ _ _ _ _ _ hb
      rw [hep]
      exact ⟨rfl, rfl⟩

/-- Witness for `doExecConfigChange_epoch`: promoting learner `{2,2}` on a
shard with epoch `(confVer 1, version 1)` yields epoch
`(confVer 2, version 1)`. -/
theorem doExecConfigChange_epoch_witness :
    doExecConfigChange (DataStorage.mk 0 false false .ok)
        (StateMachine.mk
          (Shard.mk 1 0 "" [] false [97] [122] (Epoch.mk 1 1)
            [Replica.mk 1 1 .Voter, Replica.mk 2 2 .Learner] [] .Running)
          1 5 false false)
        7 (ConfigChangeRequest.mk (Replica.mk 2 2 .Voter) .AddNode) =
      .ok (ExecOutput.mk
        (StateMachine.mk
          (Shard.mk 1 0 "" [] false [97] [122] (Epoch.mk 2 1)
            [Replica.mk 1 1 .Voter, Replica.mk 2 2 .Voter] [] .Running)
          1 5 false false)
        (newAdminResponseBatch (.configChange
          (Shard.mk 1 0 "" [] false [97] [122] (Epoch.mk 2 1)
            [Replica.mk 1 1 .Voter, Replica.mk 2 2 .Voter] [] .Running)))
        (some (.configChange 7
          [ConfigChangeRequest.mk (Replica.mk 2 2 .Voter) .AddNode]
          (Shard.mk 1 0 "" [] false [97] [122] (Epoch.mk 2 1)
            [Replica.mk 1 1 .Voter, Replica.mk 2 2 .Voter] [] .Running)))
        [ShardMetadata.mk 1 7 (ShardLocalState.mk .Normal
          (Shard.mk 1 0 "" [] false [97] [122] (Epoch.mk 2 1)
            [Replica.mk 1 1 .Voter, Replica.mk 2 2 .Voter] [] .Running)
          false)]
        none) ∧
    (ExecOutput.mk
        (StateMachine.mk
          (Shard.mk 1 0 "" [] false [97] [122] (Epoch.mk 2 1)
            [Replica.mk 1 1 .Voter, Replica.mk 2 2 .Voter] [] .Running)
          1 5 false false)
        (newAdminResponseBatch (.configChange
          (Shard.mk 1 0 "" [] false [97] [122] (Epoch.mk 2 1)
            [Replica.mk 1 1 .Voter, Replica.mk 2 2 .Voter] [] .Running)))
        (some (.configChange 7
          [ConfigChangeRequest.mk (Replica.mk 2 2 .Voter) .AddNode]
          (Shard.mk 1 0 "" [] false [97] [122] (Epoch.mk 2 1)
            [Replica.mk 1 1 .Voter, Replica.mk 2 2 .Voter] [] .Running)))
        [ShardMetadata.mk 1 7 (ShardLocalState.mk .Normal
          (Shard.mk 1 0 "" [] false [97] [122] (Epoch.mk 2 1)
            [Replica.mk 1 1 .Voter, Replica.mk 2 2 .Voter] [] .Running)
          false)]
        none).err = none ∧
    (ExecOutput.mk
        (StateMachine.mk
          (Shard.mk 1 0 "" [] false [97] [122] (Epoch.mk 2 1)
            [Replica.mk 1 1 .Voter, Replica.mk 2 2 .Voter] [] .Running)
          1 5 false false)
        (newAdminResponseBatch (.configChange
          (Shard.mk 1 0 "" [] false [97] [122] (Epoch.mk 2 1)
            [Replica.mk 1 1 .Voter, Replica.mk 2 2 .Voter] [] .Running)))
        (some (.configChange 7
          [ConfigChangeRequest.mk (Replica.mk 2 2 .Voter) .AddNode]
          (Shard.mk 1 0 "" [] false [97] [122] (Epoch.mk 2 1)
            [Replica.mk 1 1 .Voter, Replica.mk 2 2 .Voter] [] .Running)))
        [ShardMetadata.mk 1 7 (ShardLocalState.mk .Normal
          (Shard.mk 1 0 "" [] false [97] [122] (Epoch.mk 2 1)
            [Replica.mk 1 1 .Voter, Replica.mk 2 2 .Voter] [] .Running)
          false)]
        none).d.shard.epoch.confVer =
      (StateMachine.mk
        (Shard.mk 1 0 "" [] false [97] [122] (Epoch.mk 1 1)
          [Replica.mk 1 1 .Voter, Replica.mk 2 2 .Learner] [] .Running)
        1 5 false false).shard.epoch.confVer + 1 :=
  ⟨by decide, by decide,
   (doExecConfigChange_epoch (DataStorage.mk 0 false false .ok)
     (StateMachine.mk
       (Shard.mk 1 0 "" [] false [97] [122] (Epoch.mk 1 1)
         [Replica.mk 1 1 .Voter, Replica.mk 2 2 .Learner] [] .Running)
       1 5 false false)
     7 (ConfigChangeRequest.mk (Replica.mk 2 2 .Voter) .AddNode)
     (ExecOutput.mk
       (StateMachine.mk
         (Shard.mk 1 0 "" [] false [97] [122] (Epoch.mk 2 1)
           [Replica.mk 1 1 .Voter, Replica.mk 2 2 .Voter] [] .Running)
         1 5 false false)
       (newAdminResponseBatch (.configChange
         (Shard.mk 1 0 "" [] false [97] [122] (Epoch.mk 2 1)
           [Replica.mk 1 1 .Voter, Replica.mk 2 2 .Voter] [] .Running)))
       (some (.configChange 7
         [ConfigChangeRequest.mk (Replica.mk 2 2 .Voter) .AddNode]
         (Shard.mk 1 0 "" [] false [97] [122] (Epoch.mk 2 1)
           [Replica.mk 1 1 .Voter, Replica.mk 2 2 .Voter] [] .Running)))
       [ShardMetadata.mk 1 7 (ShardLocalState.mk .Normal
         (Shard.mk 1 0 "" [] false [97] [122] (Epoch.mk 2 1)
           [Replica.mk 1 1 .Voter, Replica.mk 2 2 .Voter] [] .Running)
         false)]
       none)
     (by decide) (by decide)).1⟩

/-- Witness for `doExecConfigChange_error_no_change`: the spec's literal
scenario 2 — with replicas `[{1,1,Voter},{2,2,Learner}]`, adding learner
`{3,2}` fails with `ReplicaDuplicated` and changes nothing. -/
theorem doExecConfigChange_error_no_change_witness :
    doExecConfigChange (DataStorage.mk 0 false false .ok)
        (StateMachine.mk
          (Shard.mk 1 0 "" [] false [97] [122] (Epoch.mk 1 1)
            [Replica.mk 1 1 .Voter, Replica.mk 2 2 .Learner] [] .Running)
          1 5 false false)
        7 (ConfigChangeRequest.mk (Replica.mk 3 2 .Learner)
            .AddLearnerNode) =
      .ok (ExecOutput.mk
        (StateMachine.mk
          (Shard.mk 1 0 "" [] false [97] [122] (Epoch.mk 1 1)
            [Replica.mk 1 1 .Voter, Replica.mk 2 2 .Learner] [] .Running)
          1 5 false false)
        emptyResponseBatch none [] (some .replicaDuplicated)) ∧
    (ExecOutput.mk
        (StateMachine.mk
          (Shard.mk 1 0 "" [] false [97] [122] (Epoch.mk 1 1)
            [Replica.mk 1 1 .Voter, Replica.mk 2 2 .Learner] [] .Running)
          1 5 false false)
        emptyResponseBatch none []
        (some .replicaDuplicated)).err = some .replicaDuplicated ∧
    ((ExecError.replicaDuplicated = .replicaDuplicated ∨
        ExecError.replicaDuplicated = .replicaNotFound) ∧
      (ExecOutput.mk
        (StateMachine.mk
          (Shard.mk 1 0 "" [] false [97] [122] (Epoch.mk 1 1)
            [Replica.mk 1 1 .Voter, Replica.mk 2 2 .Learner] [] .Running)
          1 5 false false)
        emptyResponseBatch none [] (some .replicaDuplicated)).d =
        StateMachine.mk
          (Shard.mk 1 0 "" [] false [97] [122] (Epoch.mk 1 1)
            [Replica.mk 1 1 .Voter, Replica.mk 2 2 .Learner] [] .Running)
          1 5 false false ∧
      (ExecOutput.mk
        (StateMachine.mk
          (Shard.mk 1 0 "" [] false [97] [122] (Epoch.mk 1 1)
            [Replica.mk 1 1 .Voter, Replica.mk 2 2 .Learner] [] .Running)
          1 5 false false)
        emptyResponseBatch none [] (some .replicaDuplicated)).d.shard =
        (StateMachine.mk
          (Shard.mk 1 0 "" [] false [97] [122] (Epoch.mk 1 1)
            [Replica.mk 1 1 .Voter, Replica.mk 2 2 .Learner] [] .Running)
          1 5 false false).shard ∧
      (ExecOutput.mk
        (StateMachine.mk
          (Shard.mk 1 0 "" [] false [97] [122] (Epoch.mk 1 1)
            [Replica.mk 1 1 .Voter, Replica.mk 2 2 .Learner] [] .Running)
          1 5 false false)
        emptyResponseBatch none [] (some .replicaDuplicated)).saved = [] ∧
      (ExecOutput.mk
        (StateMachine.mk
          (Shard.mk 1 0 "" [] false [97] [122] (Epoch.mk 1 1)
            [Replica.mk 1 1 .Voter, Replica.mk 2 2 .Learner] [] .Running)
          1 5 false false)
        emptyResponseBatch none []
        (some .replicaDuplicated)).resp = emptyResponseBatch ∧
      (ExecOutput.mk
        (StateMachine.mk
          (Shard.mk 1 0 "" [] false [97] [122] (Epoch.mk 1 1)
            [Replica.mk 1 1 .Voter, Replica.mk 2 2 .Learner] [] .Running)
          1 5 false false)
        emptyResponseBatch none []
        (some .replicaDuplicated)).adminResult = none) :=
  ⟨by decide, by decide,
   doExecConfigChange_error_no_change (DataStorage.mk 0 false false .ok)
     (StateMachine.mk
       (Shard.mk 1 0 "" [] false [97] [122] (Epoch.mk 1 1)
         [Replica.mk 1 1 .Voter, Replica.mk 2 2 .Learner] [] .Running)
       1 5 false false)
     7 (ConfigChangeRequest.mk (Replica.mk 3 2 .Learner) .AddLearnerNode)
     (ExecOutput.mk
       (StateMachine.mk
         (Shard.mk 1 0 "" [] false [97] [122] (Epoch.mk 1 1)
           [Replica.mk 1 1 .Voter, Replica.mk 2 2 .Learner] [] .Running)
         1 5 false false)
       emptyResponseBatch none [] (some .replicaDuplicated))
     .replicaDuplicated (by decide) (by decide)⟩

/-- Locating a replica by container splits the list at the first match,
and the in-place promotion rewrites exactly that entry to `Voter`. -/
theorem find_promote_split (cid : Nat) :
    ∀ (rs : List Replica) (p : Replica),
      rs.find? (fun r => r.containerID == cid) = some p →
      ∃ l1 l2, rs = l1 ++ p :: l2 ∧ (∀ r ∈ l1, r.containerID ≠ cid) ∧
        promoteVoter rs cid = l1 ++ { p with role := .Voter } :: l2 := by
  intro rs
  induction rs with
  | nil => intro p h; simp [List.find?] at h
  | cons r rest ih =>
    intro p h
    by_cases hc : r.containerID = cid
    · rw [show List.find? (fun q => q.containerID == cid) (r :: rest) =
          some r from List.find?_cons_of_pos rest (by simpa using hc)] at h
      cases h
      exact ⟨[], rest, rfl, by simp, by simp [promoteVoter, hc]⟩
    · rw [show List.find? (fun q => q.containerID == cid) (r :: rest) =
          List.find? (fun q => q.containerID == cid) rest from
          List.find?_cons_of_neg rest (by simpa using hc)] at h
      obtain ⟨l1, l2, h1, h2, h3⟩ := ih p h
      refine ⟨r :: l1, l2, by simp [h1], ?_, by simp [promoteVoter, hc, h3]⟩
      intro x hx
      rcases List.mem_cons.mp hx with hx | hx
      · rw [hx]; exact hc
      · exact h2 x hx

/-- Evaluation of `doExecConfigChange` on a successful branch with a
healthy storage adapter. -/
theorem doExecConfigChange_ok_eval (st : DataStorage) (d : StateMachine)
    (index : Nat) (req : ConfigChangeRequest) (res2 : Shard) (sf : Bool)
    (hb : configChangeBranch d
        { d.shard with
          epoch := { d.shard.epoch with
                     confVer := d.shard.epoch.confVer + 1 } }
        req.replica req.changeType = .ok (res2, sf))
    (hsave : st.saveShardMetadataErr = false) :
    doExecConfigChange st d index req =
      .ok { d := { d with shard := res2, removed := d.removed || sf },
            resp := newAdminResponseBatch (.configChange res2),
            adminResult := some (.configChange index [req] res2),
            saved := [saveShardMetedata index res2
              (if d.removed || sf then ReplicaState.Tombstone
               else ReplicaState.Normal)],
            err := none } := by
  rw [doExecConfigChange, hb, hsave]
  rfl

/-- Evaluation of `doExecConfigChange` on a failing branch. -/
theorem doExecConfigChange_error_eval (st : DataStorage) (d : StateMachine)
    (index : Nat) (req : ConfigChangeRequest) (e : ExecError)
    (hb : configChangeBranch d
        { d.shard with
          epoch := { d.shard.epoch with
                     confVer := d.shard.epoch.confVer + 1 } }
        req.replica req.changeType = .error e) :
    doExecConfigChange st d index req =
      .ok { d := d, resp := emptyResponseBatch, adminResult := none,
            saved := [], err := some e } := by
  rw [doExecConfigChange, hb]

/-- C2: the four behaviours of an `AddNode` ConfigChange entry — with a
replica `p` on the requested container and `p.id` equal to the requested
id, a Learner `p` is promoted to Voter in place while any other role fails
with `ReplicaDuplicated`; a `p` with a different id fails with
`ReplicaDuplicated`; with no replica on the container the requested
replica is appended with role Voter. -/
theorem doExecConfigChange_addNode (st : DataStorage) (d : StateMachine)
    (index : Nat) (req : ConfigChangeRequest)
    (hty : req.changeType = .AddNode)
    (hsave : st.saveShardMetadataErr = false) :
    (∀ p, findReplica d.shard req.replica.containerID = some p →
      ((p.id = req.replica.id ∧ p.role = .Learner →
        ∃ out l1 l2, doExecConfigChange st d index req = .ok out ∧
          out.err = none ∧
          d.shard.replicas = l1 ++ p :: l2 ∧
          (∀ r ∈ l1, r.containerID ≠ req.replica.containerID) ∧
          out.d.shard.replicas =
            l1 ++ { p with role := .Voter } :: l2) ∧
       (p.id = req.replica.id ∧ p.role ≠ .Learner →
        ∃ out, doExecConfigChange st d index req = .ok out ∧
          out.err = some .replicaDuplicated ∧ out.d = d) ∧
       (p.id ≠ req.replica.id →
        ∃ out, doExecConfigChange st d index req = .ok out ∧
          out.err = some .replicaDuplicated ∧ out.d = d))) ∧
    (findReplica d.shard req.replica.containerID = none →
      ∃ out, doExecConfigChange st d index req = .ok out ∧
        out.err = none ∧
        out.d.shard.replicas =
          d.shard.replicas ++ [{ req.replica with role := .Voter }]) := by
  constructor
  · intro p hf
    have hf2 : findReplica
        { d.shard with
          epoch := { d.shard.epoch with
                     confVer := d.shard.epoch.confVer + 1 } }
        req.replica.containerID = some p := hf
    refine ⟨?_, ?_, ?_⟩
    · rintro ⟨hp1, hp2⟩
      have hb : configChangeBranch d
          { d.shard with
            epoch := { d.shard.epoch with
                       confVer := d.shard.epoch.confVer + 1 } }
          req.replica req.changeType =
          .ok ({ d.shard with
                 epoch := { d.shard.epoch with
                            confVer := d.shard.epoch.confVer + 1 },
                 replicas :=
                   promoteVoter d.shard.replicas
                     req.replica.containerID },
               false) := by
        rw [hty]
        simp only [configChangeBranch, hf2]
        rw [if_pos hp1, if_neg (by simp [hp2])]
      obtain ⟨l1, l2, h1, h2, h3⟩ :=
        find_promote_split req.replica.containerID d.shard.replicas p hf
      exact ⟨_, l1, l2,
        doExecConfigChange_ok_eval st d index req _ _ hb hsave,
        rfl, h1, h2, h3⟩
    · rintro ⟨hp1, hp2⟩
      have hb : configChangeBranch d
          { d.shard with
            epoch := { d.shard.epoch with
                       confVer := d.shard.epoch.confVer + 1 } }
          req.replica req.changeType = .error .replicaDuplicated := by
        rw [hty]
        simp only [configChangeBranch, hf2]
        rw [if_pos hp1, if_pos hp2]
      exact ⟨_, doExecConfigChange_error_eval st d index req _ hb, rfl,
        rfl⟩
    · intro hp1
      have hb : configChangeBranch d
          { d.shard with
            epoch := { d.shard.epoch with
                       confVer := d.shard.epoch.confVer + 1 } }
          req.replica req.changeType = .error .replicaDuplicated := by
        rw [hty]
        simp only [configChangeBranch, hf2]
        rw [if_neg hp1]
      exact ⟨_, doExecConfigChange_error_eval st d index req _ hb, rfl,
        rfl⟩
  · intro hf
    have hf2 : findReplica
        { d.shard with
          epoch := { d.shard.epoch with
                     confVer := d.shard.epoch.confVer + 1 } }
        req.replica.containerID = none := hf
    have hb : configChangeBranch d
        { d.shard with
          epoch := { d.shard.epoch with
                     confVer := d.shard.epoch.confVer + 1 } }
        req.replica req.changeType =
        .ok ({ d.shard with
               epoch := { d.shard.epoch with
                          confVer := d.shard.epoch.confVer + 1 },
               replicas := d.shard.replicas ++
                 [{ req.replica with role := .Voter }] },
             false) := by
      rw [hty]
      simp only [configChangeBranch, hf2]
    exact ⟨_, doExecConfigChange_ok_eval st d index req _ _ hb hsave,
      rfl, rfl⟩

/-- Witness for `doExecConfigChange_addNode`: the spec's literal
scenario 1 — `AddNode {2,2}` against replicas
`[{1,1,Voter},{2,2,Learner}]` promotes the learner. -/
theorem doExecConfigChange_addNode_witness :
    (ConfigChangeRequest.mk (Replica.mk 2 2 .Voter) .AddNode).changeType =
      ConfigChangeType.AddNode ∧
    (DataStorage.mk 0 false false .ok).saveShardMetadataErr = false ∧
    ((∀ p, findReplica
        (StateMachine.mk
          (Shard.mk 1 0 "" [] false [97] [122] (Epoch.mk 1 1)
            [Replica.mk 1 1 .Voter, Replica.mk 2 2 .Learner] [] .Running)
          1 5 false false).shard
        (ConfigChangeRequest.mk (Replica.mk 2 2 .Voter)
          .AddNode).replica.containerID = some p →
      ((p.id = (ConfigChangeRequest.mk (Replica.mk 2 2 .Voter)
            .AddNode).replica.id ∧ p.role = .Learner →
        ∃ out l1 l2,
          doExecConfigChange (DataStorage.mk 0 false false .ok)
            (StateMachine.mk
              (Shard.mk 1 0 "" [] false [97] [122] (Epoch.mk 1 1)
                [Replica.mk 1 1 .Voter, Replica.mk 2 2 .Learner] []
                .Running) 1 5 false false)
            7 (ConfigChangeRequest.mk (Replica.mk 2 2 .Voter) .AddNode) =
            .ok out ∧
          out.err = none ∧
          (StateMachine.mk
            (Shard.mk 1 0 "" [] false [97] [122] (Epoch.mk 1 1)
              [Replica.mk 1 1 .Voter, Replica.mk 2 2 .Learner] []
              .Running) 1 5 false false).shard.replicas =
            l1 ++ p :: l2 ∧
          (∀ r ∈ l1, r.containerID ≠
            (ConfigChangeRequest.mk (Replica.mk 2 2 .Voter)
              .AddNode).replica.containerID) ∧
          out.d.shard.replicas =
            l1 ++ { p with role := .Voter } :: l2) ∧
       (p.id = (ConfigChangeRequest.mk (Replica.mk 2 2 .Voter)
            .AddNode).replica.id ∧ p.role ≠ .Learner →
        ∃ out,
          doExecConfigChange (DataStorage.mk 0 false false .ok)
            (StateMachine.mk
              (Shard.mk 1 0 "" [] false [97] [122] (Epoch.mk 1 1)
                [Replica.mk 1 1 .Voter, Replica.mk 2 2 .Learner] []
                .Running) 1 5 false false)
            7 (ConfigChangeRequest.mk (Replica.mk 2 2 .Voter) .AddNode) =
            .ok out ∧
          out.err = some .replicaDuplicated ∧
          out.d = StateMachine.mk
            (Shard.mk 1 0 "" [] false [97] [122] (Epoch.mk 1 1)
              [Replica.mk 1 1 .Voter, Replica.mk 2 2 .Learner] []
              .Running) 1 5 false false) ∧
       (p.id ≠ (ConfigChangeRequest.mk (Replica.mk 2 2 .Voter)
            .AddNode).replica.id →
        ∃ out,
          doExecConfigChange (DataStorage.mk 0 false false .ok)
            (StateMachine.mk
              (Shard.mk 1 0 "" [] false [97] [122] (Epoch.mk 1 1)
                [Replica.mk 1 1 .Voter, Replica.mk 2 2 .Learner] []
                .Running) 1 5 false false)
            7 (ConfigChangeRequest.mk (Replica.mk 2 2 .Voter) .AddNode) =
            .ok out ∧
          out.err = some .replicaDuplicated ∧
          out.d = StateMachine.mk
            (Shard.mk 1 0 "" [] false [97] [122] (Epoch.mk 1 1)
              [Replica.mk 1 1 .Voter, Replica.mk 2 2 .Learner] []
              .Running) 1 5 false false))) ∧
     (findReplica
        (StateMachine.mk
          (Shard.mk 1 0 "" [] false [97] [122] (Epoch.mk 1 1)
            [Replica.mk 1 1 .Voter, Replica.mk 2 2 .Learner] [] .Running)
          1 5 false false).shard
        (ConfigChangeRequest.mk (Replica.mk 2 2 .Voter)
          .AddNode).replica.containerID = none →
      ∃ out,
        doExecConfigChange (DataStorage.mk 0 false false .ok)
          (StateMachine.mk
            (Shard.mk 1 0 "" [] false [97] [122] (Epoch.mk 1 1)
              [Replica.mk 1 1 .Voter, Replica.mk 2 2 .Learner] []
              .Running) 1 5 false false)
          7 (ConfigChangeRequest.mk (Replica.mk 2 2 .Voter) .AddNode) =
          .ok out ∧
        out.err = none ∧
        out.d.shard.replicas =
          (StateMachine.mk
            (Shard.mk 1 0 "" [] false [97] [122] (Epoch.mk 1 1)
              [Replica.mk 1 1 .Voter, Replica.mk 2 2 .Learner] []
              .Running) 1 5 false false).shard.replicas ++
            [{ (ConfigChangeRequest.mk (Replica.mk 2 2 .Voter)
                .AddNode).replica with role := .Voter }])) :=
  ⟨by decide, by decide,
   doExecConfigChange_addNode (DataStorage.mk 0 false false .ok)
     (StateMachine.mk
       (Shard.mk 1 0 "" [] false [97] [122] (Epoch.mk 1 1)
         [Replica.mk 1 1 .Voter, Replica.mk 2 2 .Learner] [] .Running)
       1 5 false false)
     7 (ConfigChangeRequest.mk (Replica.mk 2 2 .Voter) .AddNode)
     (by decide) (by decide)⟩

/-- A successful validation loop constructs exactly the per-request
children. -/
theorem buildChildren_eq_map (c : Shard) :
    ∀ (es : Bytes) (rs : List SplitRequest) (cs : List Shard),
      buildChildren c es rs = some cs → cs = rs.map (mkChild c)
  | _, [], cs, h => by
    rw [buildChildren] at h
    cases h
    rfl
  | es, [r], cs, h => by
    rw [buildChildren] at h
    split at h
    · cases h
    · split at h
      · cases h
      · cases h
        rfl
  | es, r :: r2 :: rest, cs, h => by
    rw [buildChildren] at h
    split at h
    · cases h
    · split at h
      · cases h
      · split at h
        · cases h
        · next cs2 hrec =>
          cases h
          rw [List.map_cons, buildChildren_eq_map c r.end_ (r2 :: rest) cs2 hrec]

/-- A successful validation loop chains the children from the running
`expectStart`. -/
theorem buildChildren_chain (c : Shard) :
    ∀ (es : Bytes) (rs : List SplitRequest) (cs : List Shard),
      buildChildren c es rs = some cs → childChain es cs
  | _, [], cs, h => by
    rw [buildChildren] at h
    cases h
    trivial
  | es, [r], cs, h => by
    rw [buildChildren] at h
    split at h
    · cases h
    · split at h
      · cases h
      · next hne =>
        cases h
        exact ⟨not_ne_iff.mp hne, trivial⟩
  | es, r :: r2 :: rest, cs, h => by
    rw [buildChildren] at h
    split at h
    · cases h
    · split at h
      · cases h
      · split at h
        · cases h
        · next hne _ cs2 hrec =>
          cases h
          exact ⟨not_ne_iff.mp hne,
            buildChildren_chain c r.end_ (r2 :: rest) cs2 hrec⟩

/-- A chained child list is `Chain'`-adjacent: each child's end equals the
next child's start. -/
theorem childChain_chain' :
    ∀ (es : Bytes) (cs : List Shard), childChain es cs →
      List.Chain' (fun a b => a.end_ = b.start) cs
  | _, [], _ => List.chain'_nil
  | _, [_], _ => List.chain'_singleton _
  | _, c :: c2 :: rest, h =>
    List.chain'_cons.mpr ⟨h.2.1.symm,
      childChain_chain' c.end_ (c2 :: rest) h.2⟩

/-- Pairs of a mapped list zipped with its source list are pointwise
related by the map. -/
theorem zip_map_fst (f : SplitRequest → Shard) :
    ∀ (l : List SplitRequest) (pr : Shard × SplitRequest),
      pr ∈ (l.map f).zip l → pr.1 = f pr.2
  | [], pr, h => by simp at h
  | a :: rest, pr, h => by
    rw [List.map_cons, List.zip_cons_cons] at h
    rcases List.mem_cons.mp h with h | h
    · rw [h]
    · exact zip_map_fst f rest pr h

/-- C1: a committed BatchSplit whose validation passes and whose
`storage.Split` call succeeds constructs children that tile the parent's
range exactly — one child per request, the first child starting at the
parent's start, the last child ending at the parent's end, each child's
end equal to the next child's start — with every child's `epoch.version`
equal to the parent's pre-split version plus the number of requests,
`confVer` unchanged, `group`, `unique`, `ruleGroups` and `disableSplit`
inherited from the parent, and `id`, `start`, `end`, `replicas` taken from
the matching request. -/
theorem doExecSplit_tiling (st : DataStorage) (d : StateMachine)
    (splitReqs : BatchSplitRequest) (out : ExecOutput)
    (children : List Shard)
    (h : doExecSplit st d splitReqs = .ok out)
    (hres : out.adminResult = some (.split children)) :
    children.length = splitReqs.requests.length ∧
    (∀ c ∈ children.head?, c.start = d.shard.start) ∧
    (∀ c ∈ children.getLast?, c.end_ = d.shard.end_) ∧
    List.Chain' (fun a b => a.end_ = b.start) children ∧
    (∀ c ∈ children,
      c.epoch.version =
        d.shard.epoch.version + splitReqs.requests.length ∧
      c.epoch.confVer = d.shard.epoch.confVer ∧
      c.group = d.shard.group ∧ c.unique = d.shard.unique ∧
      c.ruleGroups = d.shard.ruleGroups ∧
      c.disableSplit = d.shard.disableSplit) ∧
    (∀ pr ∈ children.zip splitReqs.requests,
      pr.1.id = pr.2.newShardID ∧ pr.1.start = pr.2.start ∧
      pr.1.end_ = pr.2.end_ ∧ pr.1.replicas = pr.2.newReplicas) := by
  rw [doExecSplit] at h
  generalize hsc : splitChildren d.shard splitReqs.requests = sc at h
  cases sc with
  | none => cases h
  | some pcs =>
    obtain ⟨parent, cs⟩ := pcs
    cases hst : st.splitResult with
    | aborted => rw [hst] at h; cases h; cases hres
    | otherErr => rw [hst] at h; cases h
    | ok =>
      rw [hst] at h
      cases h
      have hcs : children = cs := by
        have := hres
        simp only [Option.some.injEq, AdminResult.split.injEq] at this
        exact this.symm
      subst hcs
      rw [splitChildren.eq_def] at hsc
      split at hsc
      · cases hsc
      · next r0 rest hreq =>
        split at hsc
        · next hcond =>
          dsimp only at hsc
          split at hsc
          · cases hsc
          · next cs2 hbc =>
            cases hsc
            have hmap := buildChildren_eq_map _ _ _ _ hbc
            have hchain := buildChildren_chain _ _ _ _ hbc
            subst hmap
            rw [hreq]
            refine ⟨by rw [List.length_map], ?_, ?_, ?_, ?_, ?_⟩
            · intro c hc
              simp only [List.map_cons, List.head?_cons, Option.mem_def,
                Option.some.injEq] at hc
              subst hc
              exact hchain.1
            · intro c hc
              rw [List.getLast?_map,
                List.getLast?_eq_getLast (r0 :: rest)
                  (List.cons_ne_nil r0 rest)] at hc
              simp only [Option.map_some', Option.mem_def,
                Option.some.injEq] at hc
              subst hc
              exact hcond.2
            · exact childChain_chain' _ _ hchain
            · intro c hc
              obtain ⟨r, hr, hcr⟩ := List.mem_map.mp hc
              rw [← hcr]
              exact ⟨rfl, rfl, rfl, rfl, rfl, rfl⟩
            · intro pr hpr
              rw [zip_map_fst _ _ _ hpr]
              exact ⟨rfl, rfl, rfl, rfl⟩
        · cases hsc

/-- Witness for `doExecSplit_tiling`: the spec's literal scenario 4 — a
two-way split of `["a","z")` at `"m"` into shards `10` and `11`. -/
theorem doExecSplit_tiling_witness :
    doExecSplit (DataStorage.mk 0 false false .ok)
        (StateMachine.mk
          (Shard.mk 1 0 "" [] false [97] [122] (Epoch.mk 1 1)
            [Replica.mk 1 1 .Voter] [] .Running) 1 5 false false)
        (BatchSplitRequest.mk
          [SplitRequest.mk [97] [109] 10 [Replica.mk 10 1 .Voter],
           SplitRequest.mk [109] [122] 11 [Replica.mk 11 1 .Voter]] []) =
      .ok (ExecOutput.mk
        (StateMachine.mk
          (Shard.mk 1 0 "" [] false [97] [122] (Epoch.mk 1 3)
            [Replica.mk 1 1 .Voter] [] .Destroying) 1 5 false true)
        (newAdminResponseBatch (.batchSplit
          [Shard.mk 10 0 "" [] false [97] [109] (Epoch.mk 1 3)
            [Replica.mk 10 1 .Voter] [] .Running,
           Shard.mk 11 0 "" [] false [109] [122] (Epoch.mk 1 3)
            [Replica.mk 11 1 .Voter] [] .Running]))
        (some (.split
          [Shard.mk 10 0 "" [] false [97] [109] (Epoch.mk 1 3)
            [Replica.mk 10 1 .Voter] [] .Running,
           Shard.mk 11 0 "" [] false [109] [122] (Epoch.mk 1 3)
            [Replica.mk 11 1 .Voter] [] .Running]))
        [] none) ∧
    ([Shard.mk 10 0 "" [] false [97] [109] (Epoch.mk 1 3)
        [Replica.mk 10 1 .Voter] [] .Running,
      Shard.mk 11 0 "" [] false [109] [122] (Epoch.mk 1 3)
        [Replica.mk 11 1 .Voter] [] .Running].length =
      (BatchSplitRequest.mk
        [SplitRequest.mk [97] [109] 10 [Replica.mk 10 1 .Voter],
         SplitRequest.mk [109] [122] 11 [Replica.mk 11 1 .Voter]]
        []).requests.length ∧
     (∀ c ∈ ([Shard.mk 10 0 "" [] false [97] [109] (Epoch.mk 1 3)
          [Replica.mk 10 1 .Voter] [] .Running,
        Shard.mk 11 0 "" [] false [109] [122] (Epoch.mk 1 3)
          [Replica.mk 11 1 .Voter] [] .Running] : List Shard).head?,
       c.start = [97]) ∧
     (∀ c ∈ ([Shard.mk 10 0 "" [] false [97] [109] (Epoch.mk 1 3)
          [Replica.mk 10 1 .Voter] [] .Running,
        Shard.mk 11 0 "" [] false [109] [122] (Epoch.mk 1 3)
          [Replica.mk 11 1 .Voter] [] .Running] : List Shard).getLast?,
       c.end_ = [122]) ∧
     List.Chain' (fun a b => a.end_ = b.start)
       [Shard.mk 10 0 "" [] false [97] [109] (Epoch.mk 1 3)
          [Replica.mk 10 1 .Voter] [] .Running,
        Shard.mk 11 0 "" [] false [109] [122] (Epoch.mk 1 3)
          [Replica.mk 11 1 .Voter] [] .Running] ∧
     (∀ c ∈ ([Shard.mk 10 0 "" [] false [97] [109] (Epoch.mk 1 3)
          [Replica.mk 10 1 .Voter] [] .Running,
        Shard.mk 11 0 "" [] false [109] [122] (Epoch.mk 1 3)
          [Replica.mk 11 1 .Voter] [] .Running] : List Shard),
       c.epoch.version = 1 + 2 ∧ c.epoch.confVer = 1 ∧
       c.group = 0 ∧ c.unique = "" ∧ c.ruleGroups = [] ∧
       c.disableSplit = false) ∧
     (∀ pr ∈ ([Shard.mk 10 0 "" [] false [97] [109] (Epoch.mk 1 3)
          [Replica.mk 10 1 .Voter] [] .Running,
        Shard.mk 11 0 "" [] false [109] [122] (Epoch.mk 1 3)
          [Replica.mk 11 1 .Voter] [] .Running] : List Shard).zip
          (BatchSplitRequest.mk
            [SplitRequest.mk [97] [109] 10 [Replica.mk 10 1 .Voter],
             SplitRequest.mk [109] [122] 11 [Replica.mk 11 1 .Voter]]
            []).requests,
       pr.1.id = pr.2.newShardID ∧ pr.1.start = pr.2.start ∧
       pr.1.end_ = pr.2.end_ ∧ pr.1.replicas = pr.2.newReplicas)) :=
  ⟨by decide,
   by
    have := doExecSplit_tiling (DataStorage.mk 0 false false .ok)
      (StateMachine.mk
        (Shard.mk 1 0 "" [] false [97] [122] (Epoch.mk 1 1)
          [Replica.mk 1 1 .Voter] [] .Running) 1 5 false false)
      (BatchSplitRequest.mk
        [SplitRequest.mk [97] [109] 10 [Replica.mk 10 1 .Voter],
         SplitRequest.mk [109] [122] 11 [Replica.mk 11 1 .Voter]] [])
      (ExecOutput.mk
        (StateMachine.mk
          (Shard.mk 1 0 "" [] false [97] [122] (Epoch.mk 1 3)
            [Replica.mk 1 1 .Voter] [] .Destroying) 1 5 false true)
        (newAdminResponseBatch (.batchSplit
          [Shard.mk 10 0 "" [] false [97] [109] (Epoch.mk 1 3)
            [Replica.mk 10 1 .Voter] [] .Running,
           Shard.mk 11 0 "" [] false [109] [122] (Epoch.mk 1 3)
            [Replica.mk 11 1 .Voter] [] .Running]))
        (some (.split
          [Shard.mk 10 0 "" [] false [97] [109] (Epoch.mk 1 3)
            [Replica.mk 10 1 .Voter] [] .Running,
           Shard.mk 11 0 "" [] false [109] [122] (Epoch.mk 1 3)
            [Replica.mk 11 1 .Voter] [] .Running]))
        [] none)
      [Shard.mk 10 0 "" [] false [97] [109] (Epoch.mk 1 3)
        [Replica.mk 10 1 .Voter] [] .Running,
       Shard.mk 11 0 "" [] false [109] [122] (Epoch.mk 1 3)
        [Replica.mk 11 1 .Voter] [] .Running]
      (by decide) (by decide)
    exact this⟩

/-- A freshly bound stream is what lookup returns for its shard. -/
theorem lookupStream_bindStream (σ : HBStreams) (s stream : Nat) :
    lookupStream (bindStream σ s stream).bound s = some stream := by
  show (List.find? (fun p => p.1 == s)
      ((s, stream) :: σ.bound.filter (fun p => p.1 != s))).map
      (fun p => p.2) = some stream
  rw [show List.find? (fun p : Nat × Nat => p.1 == s)
      ((s, stream) :: σ.bound.filter (fun p => p.1 != s)) =
      some (s, stream) from
      List.find?_cons_of_pos _ (by simp)]
  rfl

/-- Sending to a shard whose stream is bound appends exactly one delivery
to that stream and leaves the binding map unchanged. -/
theorem sendMsg_eval (σ : HBStreams) (s stream m : Nat)
    (h : lookupStream σ.bound s = some stream) :
    sendMsg σ s m =
      { σ with delivered := σ.delivered ++ [(stream, m)] } := by
  rw [sendMsg, h]

/-- Sending a message sequence to a bound shard appends the corresponding
deliveries, all to the bound stream, and keeps the binding map. -/
theorem sendMsgs_delivered (s stream : Nat) :
    ∀ (msgs : List Nat) (σ : HBStreams),
      lookupStream σ.bound s = some stream →
      (sendMsgs σ s msgs).bound = σ.bound ∧
      (sendMsgs σ s msgs).delivered =
        σ.delivered ++ msgs.map (fun m => (stream, m))
  | [], σ, h => by
    constructor
    · rfl
    · simp [sendMsgs]
  | m :: rest, σ, h => by
    rw [sendMsgs, sendMsg_eval σ s stream m h]
    obtain ⟨hb, hd⟩ := sendMsgs_delivered s stream rest
      { σ with delivered := σ.delivered ++ [(stream, m)] } h
    refine ⟨hb, ?_⟩
    rw [hd]
    simp

/-- C8 (modelled from the spec, §4.4): after `BindStream(s, S2)`, every
delivery produced by subsequent `SendMsg(s, _)` calls goes to `S2` and
none goes to the previously bound `S1`; after rebinding `s` back to `S1`,
subsequent sends deliver to `S1` and none to `S2`. -/
theorem bindStream_rebind_routes (σ : HBStreams) (s S1 S2 : Nat)
    (msgs msgs2 : List Nat) (hne : S1 ≠ S2) :
    ((sendMsgs (bindStream σ s S2) s msgs).delivered =
        (bindStream σ s S2).delivered ++ msgs.map (fun m => (S2, m)) ∧
      ∀ pr ∈ msgs.map (fun m => (S2, m)), pr.1 ≠ S1) ∧
    ((sendMsgs (bindStream (sendMsgs (bindStream σ s S2) s msgs) s S1) s
        msgs2).delivered =
        (bindStream (sendMsgs (bindStream σ s S2) s msgs) s
          S1).delivered ++ msgs2.map (fun m => (S1, m)) ∧
      ∀ pr ∈ msgs2.map (fun m => (S1, m)), pr.1 ≠ S2) := by
  have h2 := sendMsgs_delivered s S2 msgs (bindStream σ s S2)
    (lookupStream_bindStream σ s S2)
  have h1 := sendMsgs_delivered s S1 msgs2
    (bindStream (sendMsgs (bindStream σ s S2) s msgs) s S1)
    (lookupStream_bindStream _ s S1)
  refine ⟨⟨h2.2, ?_⟩, ⟨h1.2, ?_⟩⟩
  · intro pr hpr
    obtain ⟨m, hm, hpr2⟩ := List.mem_map.mp hpr
    rw [← hpr2]
    exact Ne.symm hne
  · intro pr hpr
    obtain ⟨m, hm, hpr2⟩ := List.mem_map.mp hpr
    rw [← hpr2]
    exact hne

/-- Witness for `bindStream_rebind_routes`: the source test `TestActivity`
in miniature — shard `1` bound to stream `1`, rebound to stream `2`, a
send, rebind back to `1`, another send. -/
theorem bindStream_rebind_routes_witness :
    (1 : Nat) ≠ 2 ∧
    (((sendMsgs (bindStream (HBStreams.mk [(1, 1)] [] 0) 1 2) 1
          [5]).delivered =
        (bindStream (HBStreams.mk [(1, 1)] [] 0) 1 2).delivered ++
          ([5] : List Nat).map (fun m => (2, m)) ∧
      ∀ pr ∈ ([5] : List Nat).map (fun m => (2, m)), pr.1 ≠ 1) ∧
     ((sendMsgs (bindStream
          (sendMsgs (bindStream (HBStreams.mk [(1, 1)] [] 0) 1 2) 1 [5])
          1 1) 1 [6]).delivered =
        (bindStream
          (sendMsgs (bindStream (HBStreams.mk [(1, 1)] [] 0) 1 2) 1 [5])
          1 1).delivered ++ ([6] : List Nat).map (fun m => (1, m)) ∧
      ∀ pr ∈ ([6] : List Nat).map (fun m => (1, m)), pr.1 ≠ 2)) :=
  ⟨by decide,
   bindStream_rebind_routes (HBStreams.mk [(1, 1)] [] 0) 1 1 2 [5] [6]
     (by decide)⟩

end Raftstore
